import Mathlib

/-!
Shallow embedding of the H5P.ThreeSixty panorama viewer
(src/scripts/three-sixty.js, the canonical feature-complete revision).

JavaScript numbers are modelled as real numbers.  The JavaScript remainder
operator, whose result has the sign of the dividend, is modelled by jsMod
below.  Event listener registration is modelled by boolean flags, and the
events broadcast by an operation are returned as an explicit list.
-/

noncomputable section

namespace ThreeSixty

/-- JavaScript truncation toward zero (the integer part used by the
remainder operator). -/
def jsTrunc (x : ℝ) : ℤ :=
  if 0 ≤ x then ⌊x⌋ else ⌈x⌉

/-- The JavaScript remainder operator on numbers: the result has the sign
of the dividend. -/
def jsMod (a n : ℝ) : ℝ :=
  a - n * jsTrunc (a / n)

/-- Source: var toRad = function (value) \x7b return value * (Math.PI / 180); \x7d -/
def toRad (value : ℝ) : ℝ :=
  value * (Real.pi / 180)

/-- Source: const maxPitch = Math.PI / 2 -/
def maxPitch : ℝ := Real.pi / 2

/-- Source: const pi2 = Math.PI * 2 -/
def pi2 : ℝ := Real.pi * 2

/-- Source: const fieldOfView = 75 (degrees), inside the ThreeSixty constructor. -/
def fieldOfView : ℝ := 75

/-- Source: const radsFromCameraCenter = toRad(fieldOfView) / 2, in the
camera move handler. -/
def radsFromCameraCenter : ℝ :=
  toRad fieldOfView / 2

/-- Default friction of a PositionControls instance:
if (!friction) friction = 800. -/
def defaultFriction : ℝ := 800

/-- Friction passed when constructing the camera controls:
new PositionControls(cssRenderer.domElement, 400, true). -/
def cameraFriction : ℝ := 400

/-- The friction used by the touch move path: friction * 0.75. -/
def touchFriction (friction : ℝ) : ℝ :=
  friction * 0.75

/-- The friction used by the keyboard move path: friction * 0.025. -/
def keyFriction (friction : ℝ) : ℝ :=
  friction * 0.025

/-- The angular delta computed by PositionControls.move:
(current coordinate - start coordinate) / friction. -/
def frictionDelta (c c0 f : ℝ) : ℝ :=
  (c - c0) / f

/-- State of one PositionControls instance.  Listener registration is
modelled by boolean flags (mousemove/mouseup on window, touchmove/touchend
on the element, keyup on the element). -/
structure PC where
  alpha : ℝ
  beta : ℝ
  controlActive : Bool
  startPosition : ℝ × ℝ
  startAlpha : ℝ
  startBeta : ℝ
  keyStillDown : Option ℕ
  scroller : ℝ × ℝ
  mouseListeners : Bool
  touchListeners : Bool
  keyupListener : Bool

/-- Events triggered by a PositionControls instance. -/
inductive PCEvent
| movestart
| move (alphaDelta betaDelta alpha beta : ℝ)
| movestop

/-- The data carried on a move event. -/
structure MoveEv where
  alphaDelta : ℝ
  betaDelta : ℝ
  alpha : ℝ
  beta : ℝ

/-- PositionControls start(x, y): fails when this instance is already
active; otherwise triggers movestart (which any subscriber may prevent;
the prevented argument is the outcome of that dispatch) and on success
records the origin coordinates and origin angles and becomes active. -/
def PCstartFn (s : PC) (x y : ℝ) (prevented : Bool) : Bool × PC × List PCEvent :=
  if s.controlActive then (false, s, [])
  else if prevented then (false, s, [PCEvent.movestart])
  else (true,
    { s with
        startPosition := (x, y)
        startAlpha := s.alpha
        startBeta := s.beta
        controlActive := true },
    [PCEvent.movestart])

/-- PositionControls move(x, y, f): computes the friction-scaled deltas,
updates the internal alpha (mod 2 pi) and beta (mod pi, then clamped to
plus/minus pi over 2), and returns the move event data. -/
def PCmoveFn (s : PC) (x y f : ℝ) : PC × MoveEv :=
  let aD := frictionDelta x s.startPosition.1 f
  let bD := frictionDelta y s.startPosition.2 f
  let alpha1 := jsMod (s.startAlpha + aD) pi2
  let beta1 := jsMod (s.startBeta - bD) Real.pi
  let beta2 :=
    if Real.pi / 2 < beta1 then Real.pi / 2
    else if beta1 < -(Real.pi / 2) then -(Real.pi / 2)
    else beta1
  ({ s with alpha := alpha1, beta := beta2 }, ⟨aD, bD, alpha1, beta2⟩)

/-- PositionControls end(): deactivates and triggers movestop. -/
def PCendFn (s : PC) : PC × List PCEvent :=
  ({ s with controlActive := false }, [PCEvent.movestop])

/-- mouseDown: only the primary button (which = 1) is honoured; on a
successful start the window mousemove/mouseup listeners are attached. -/
def mouseDownFn (s : PC) (which : ℕ) (x y : ℝ) (prevented : Bool) : PC × List PCEvent :=
  if which ≠ 1 then (s, [])
  else
    let r := PCstartFn s x y prevented
    if r.1 then ({ r.2.1 with mouseListeners := true }, r.2.2)
    else (r.2.1, r.2.2)

/-- The key codes recognised by keyDown: the four arrow keys and their
numpad equivalents. -/
def arrowKeys : List ℕ := [37, 100, 38, 104, 39, 102, 40, 98]

/-- The keyScroller update performed by keyDown for the key that owns the
session; invert is 1 for the camera controls and -1 for element controls. -/
def updateScroller (sc : ℝ × ℝ) (which : ℕ) (invert : ℝ) : ℝ × ℝ :=
  if which = 37 ∨ which = 100 then (sc.1 + invert, sc.2)
  else if which = 38 ∨ which = 104 then (sc.1, sc.2 + invert)
  else if which = 39 ∨ which = 102 then (sc.1 - invert, sc.2)
  else if which = 40 ∨ which = 98 then (sc.1, sc.2 - invert)
  else sc

/-- keyDown: ignores key codes outside arrowKeys entirely; when no key owns
a session it tries to start one at the current scroller position (recording
the starting key and attaching the keyup listener on success); then only the
key that started the session updates the scroller and moves, with friction
friction * 0.025. -/
def keyDownFn (s : PC) (which : ℕ) (invert f : ℝ) (prevented : Bool) : PC × List PCEvent :=
  if ¬ which ∈ arrowKeys then (s, [])
  else
    let r1 :=
      if s.keyStillDown = none then
        let r := PCstartFn s s.scroller.1 s.scroller.2 prevented
        if r.1 then ({ r.2.1 with keyStillDown := some which, keyupListener := true }, r.2.2)
        else (r.2.1, r.2.2)
      else (s, ([] : List PCEvent))
    if r1.1.keyStillDown ≠ some which then r1
    else
      let sc := updateScroller r1.1.scroller which invert
      let s2 := { r1.1 with scroller := sc }
      let r2 := PCmoveFn s2 sc.1 sc.2 (keyFriction f)
      (r2.1, r1.2 ++ [PCEvent.move r2.2.alphaDelta r2.2.betaDelta r2.2.alpha r2.2.beta])

/-- keyUp: forgets the owning key, detaches the keyup listener and ends the
session. -/
def keyUpFn (s : PC) : PC × List PCEvent :=
  let r := PCendFn { s with keyStillDown := none, keyupListener := false }
  (r.1, r.2)

/-- A 3D position, as assigned to threeElement.position. -/
structure Vec3 where
  x : ℝ
  y : ℝ
  z : ℝ

/-- Euler rotation orders appearing in the source. -/
inductive EulerOrder
| XYZ
| YXZ

/-- A rotation, as assigned to threeElement.rotation and camera.rotation
(the source never touches the z component). -/
structure EulerRot where
  order : EulerOrder
  x : ℝ
  y : ℝ

/-- setElementPosition(yaw, pitch) from self.add: places the overlay on a
sphere of radius 800 and orients it facing the camera, rotation order YXZ. -/
def setElementPosition (yaw pitch : ℝ) : Vec3 × EulerRot :=
  (⟨800 * Real.sin yaw * Real.cos pitch,
    800 * Real.sin pitch,
    -800 * Real.cos yaw * Real.cos pitch⟩,
   ⟨EulerOrder.YXZ, pitch, -yaw⟩)

/-- The pitch bound applied by the camera move handler: pitch may not get
within radsFromCameraCenter of either pole. -/
def clampCameraPitch (pitch : ℝ) : ℝ :=
  if maxPitch < pitch + radsFromCameraCenter then maxPitch - radsFromCameraCenter
  else if pitch - radsFromCameraCenter < -maxPitch then -maxPitch + radsFromCameraCenter
  else pitch

/-- The camera move handler (cameraControls.on move): from the recorded
start angles and the event deltas it computes the new rotation, clamping
the pitch and normalizing the yaw into [0, 2 pi): yaw %= pi2, then
if yaw < 0 then yaw += pi2. -/
def cameraMoveCompute (startY startX alphaDelta betaDelta : ℝ) : ℝ × ℝ :=
  (if jsMod (startY + alphaDelta) pi2 < 0 then jsMod (startY + alphaDelta) pi2 + pi2
   else jsMod (startY + alphaDelta) pi2,
   clampCameraPitch (startX + betaDelta))

/-- camera.rotation (order YXZ; only the x and y components are used). -/
structure Camera where
  rotY : ℝ
  rotX : ℝ

/-- Events relayed by the ThreeSixty instance.  movestopCam is the bare
movestop event relayed when a camera drag ends (it carries no data);
movestopSet is the movestop event triggered by setCameraPosition;
movestopElem is the movestop event of an overlay drag, whose data carries
the element index and the final yaw and pitch. -/
inductive OutEvent
| movestartCam
| movestartElem
| movestopCam
| movestopSet (yaw pitch : ℝ)
| movestopElem (elementIndex : ℕ) (yaw pitch : ℝ)

/-- Whether a relayed movestop event carries a yaw/pitch payload. -/
def carriesPosition : OutEvent → Bool
| OutEvent.movestopSet _ _ => true
| OutEvent.movestopElem _ _ _ => true
| _ => false

/-- The state of one ThreeSixty instance with its camera controls and one
draggable overlay element.  camStartY/camStartX and elemStartY/elemStartX
model the startY/startX fields the movestart handlers store on the
respective PositionControls instance; elemRotY/elemRotX/elemPos model
threeElement.rotation and threeElement.position. -/
structure Sys where
  camera : Camera
  preventDeviceOrientation : Bool
  camControls : PC
  camStartY : ℝ
  camStartX : ℝ
  elemControls : PC
  elemStartY : ℝ
  elemStartX : ℝ
  elemIndex : ℕ
  elemRotY : ℝ
  elemRotX : ℝ
  elemPos : Vec3

/-- self.setCameraPosition(yaw, pitch): a no-op while
preventDeviceOrientation is set; otherwise stores the rotation (with the
yaw negated) and triggers movestop with the yaw and pitch as data. -/
def setCameraPosition (s : Sys) (yaw pitch : ℝ) : Sys × List OutEvent :=
  if s.preventDeviceOrientation then (s, [])
  else ({ s with camera := { rotY := -yaw, rotX := pitch } },
        [OutEvent.movestopSet yaw pitch])

/-- self.getCurrentPosition(): yaw is the negated camera y rotation. -/
def getCurrentPosition (s : Sys) : ℝ × ℝ :=
  (-s.camera.rotY, s.camera.rotX)

/-- A primary-button mousedown on the camera controls: PositionControls
start plus the cameraControls movestart handler, which records the camera
rotation as the start angles and raises preventDeviceOrientation.  No
handler in this program prevents the movestart event. -/
def sysCamMouseDown (s : Sys) (which : ℕ) (x y : ℝ) : Sys × List OutEvent :=
  if which ≠ 1 then (s, [])
  else if s.camControls.controlActive then (s, [])
  else
    ({ s with
        camStartY := s.camera.rotY
        camStartX := s.camera.rotX
        preventDeviceOrientation := true
        camControls := { s.camControls with
          startPosition := (x, y)
          startAlpha := s.camControls.alpha
          startBeta := s.camControls.beta
          controlActive := true
          mouseListeners := true } },
     [OutEvent.movestartCam])

/-- A primary-button mousedown on a draggable overlay element: the
elementControls movestart handler records the element rotation (yaw
negated) as the start angles and raises preventDeviceOrientation.  No
handler in this program prevents the movestart event. -/
def sysElemMouseDown (s : Sys) (which : ℕ) (x y : ℝ) : Sys × List OutEvent :=
  if which ≠ 1 then (s, [])
  else if s.elemControls.controlActive then (s, [])
  else
    ({ s with
        elemStartY := -s.elemRotY
        elemStartX := s.elemRotX
        preventDeviceOrientation := true
        elemControls := { s.elemControls with
          startPosition := (x, y)
          startAlpha := s.elemControls.alpha
          startBeta := s.elemControls.beta
          controlActive := true
          mouseListeners := true } },
     [OutEvent.movestartElem])

/-- A mousemove during a camera drag: PositionControls.move with the camera
friction, then the camera move handler applies the deltas to the recorded
start angles. -/
def sysCamMouseMove (s : Sys) (x y : ℝ) : Sys :=
  let r := PCmoveFn s.camControls x y cameraFriction
  let yp := cameraMoveCompute s.camStartY s.camStartX r.2.alphaDelta r.2.betaDelta
  { s with camControls := r.1, camera := { rotY := yp.1, rotX := yp.2 } }

/-- A mousemove during an overlay drag: PositionControls.move with the
default friction, then the elementControls move handler recomputes the
placement from startY + alphaDelta and startX - betaDelta. -/
def sysElemMove (s : Sys) (x y : ℝ) : Sys :=
  let r := PCmoveFn s.elemControls x y defaultFriction
  let pr := setElementPosition (s.elemStartY + r.2.alphaDelta) (s.elemStartX - r.2.betaDelta)
  { s with elemControls := r.1, elemPos := pr.1, elemRotY := pr.2.y, elemRotX := pr.2.x }

/-- Mouseup during a camera drag: removes the window listeners, ends the
session, and the cameraControls movestop handler clears
preventDeviceOrientation and relays the bare movestop event. -/
def sysCamMouseUp (s : Sys) : Sys × List OutEvent :=
  ({ s with
      camControls := { s.camControls with mouseListeners := false, controlActive := false }
      preventDeviceOrientation := false },
   [OutEvent.movestopCam])

/-- Touchend during a camera drag: removes the element touch listeners,
ends the session, clears preventDeviceOrientation and relays the bare
movestop event. -/
def sysCamTouchEnd (s : Sys) : Sys × List OutEvent :=
  ({ s with
      camControls := { s.camControls with touchListeners := false, controlActive := false }
      preventDeviceOrientation := false },
   [OutEvent.movestopCam])

/-- Keyup of the owning key during a camera keyboard session: forgets the
key, removes the keyup listener, ends the session, clears
preventDeviceOrientation and relays the bare movestop event. -/
def sysCamKeyUp (s : Sys) : Sys × List OutEvent :=
  ({ s with
      camControls := { s.camControls with
        keyStillDown := none
        keyupListener := false
        controlActive := false }
      preventDeviceOrientation := false },
   [OutEvent.movestopCam])

/-- Mouseup during an overlay drag: removes the window listeners, ends the
session, and the elementControls movestop handler clears
preventDeviceOrientation and relays movestop with the element index and
the final yaw (negated element rotation) and pitch as data. -/
def sysElemMouseUp (s : Sys) : Sys × List OutEvent :=
  ({ s with
      elemControls := { s.elemControls with mouseListeners := false, controlActive := false }
      preventDeviceOrientation := false },
   [OutEvent.movestopElem s.elemIndex (-s.elemRotY) s.elemRotX])

/-- The initial state of a fresh PositionControls instance. -/
def pcInit : PC :=
  { alpha := 0
    beta := 0
    controlActive := false
    startPosition := (0, 0)
    startAlpha := 0
    startBeta := 0
    keyStillDown := none
    scroller := (0, 0)
    mouseListeners := false
    touchListeners := false
    keyupListener := false }

/-- A ThreeSixty instance just after construction with the default camera
start position, with one draggable overlay added at yaw 0, pitch 0. -/
def sInit : Sys :=
  { camera := { rotY := Real.pi * (2 / 3), rotX := 0 }
    preventDeviceOrientation := false
    camControls := pcInit
    camStartY := 0
    camStartX := 0
    elemControls := pcInit
    elemStartY := 0
    elemStartX := 0
    elemIndex := 0
    elemRotY := (setElementPosition 0 0).2.y
    elemRotX := (setElementPosition 0 0).2.x
    elemPos := (setElementPosition 0 0).1 }

/-- The state with a camera drag session active, reached from sInit by a
primary-button mousedown on the camera controls. -/
def camDragSys : Sys :=
  (sysCamMouseDown sInit 1 0 0).1

/-- The state with an overlay drag session active, reached from sInit by a
primary-button mousedown on the overlay element. -/
def elemDragSys : Sys :=
  (sysElemMouseDown sInit 1 0 0).1

/-- sInit with preventDeviceOrientation raised, as during a manual drag. -/
def sFlagSet : Sys :=
  { sInit with preventDeviceOrientation := true }

/-- pcInit with a keyboard session owned by the left arrow key. -/
def pcLeftKeySession : PC :=
  { pcInit with controlActive := true, keyStillDown := some 37, keyupListener := true }

/-! Helper lemmas. -/

/-- The JavaScript remainder jsMod a n lies strictly between -n and n for
a positive modulus n. -/
theorem jsMod_bounds (a n : ℝ) (hn : 0 < n) : -n < jsMod a n ∧ jsMod a n < n := by
  have hne : n ≠ 0 := ne_of_gt hn
  have ha : n * (a / n) = a := by field_simp
  unfold jsMod jsTrunc
  rcases le_or_lt 0 (a / n) with h | h
  · rw [if_pos h]
    have h1 : ((⌊a / n⌋ : ℤ) : ℝ) ≤ a / n := Int.floor_le _
    have h2 : a / n < ((⌊a / n⌋ : ℤ) : ℝ) + 1 := Int.lt_floor_add_one _
    have h1n : n * ((⌊a / n⌋ : ℤ) : ℝ) ≤ n * (a / n) := mul_le_mul_of_nonneg_left h1 hn.le
    have h2n : n * (a / n) < n * (((⌊a / n⌋ : ℤ) : ℝ) + 1) := (mul_lt_mul_left hn).mpr h2
    have e : n * (((⌊a / n⌋ : ℤ) : ℝ) + 1) = n * ((⌊a / n⌋ : ℤ) : ℝ) + n := by ring
    constructor
    · linarith
    · linarith
  · rw [if_neg (not_le.mpr h)]
    have h1 : a / n ≤ ((⌈a / n⌉ : ℤ) : ℝ) := Int.le_ceil _
    have h2 : ((⌈a / n⌉ : ℤ) : ℝ) < a / n + 1 := Int.ceil_lt_add_one _
    have h1n : n * (a / n) ≤ n * ((⌈a / n⌉ : ℤ) : ℝ) := mul_le_mul_of_nonneg_left h1 hn.le
    have h2n : n * ((⌈a / n⌉ : ℤ) : ℝ) < n * (a / n + 1) := (mul_lt_mul_left hn).mpr h2
    have e : n * (a / n + 1) = n * (a / n) + n := by ring
    constructor
    · linarith
    · linarith

/-- The half field of view in radians is five pi over twenty four. -/
theorem radsFromCameraCenter_eq : radsFromCameraCenter = 5 * Real.pi / 24 := by
  unfold radsFromCameraCenter toRad fieldOfView
  ring

/-- The camera pitch clamp keeps the result within the bound. -/
theorem clampCameraPitch_mem (p : ℝ) :
    -(maxPitch - radsFromCameraCenter) ≤ clampCameraPitch p ∧
    clampCameraPitch p ≤ maxPitch - radsFromCameraCenter := by
  have hr : radsFromCameraCenter = 5 * Real.pi / 24 := radsFromCameraCenter_eq
  have hm : maxPitch = Real.pi / 2 := rfl
  have hpi := Real.pi_pos
  unfold clampCameraPitch
  split_ifs with h1 h2
  · constructor <;> linarith
  · constructor <;> linarith
  · constructor <;> linarith

/-- A pitch within the bound is left unchanged by the camera pitch clamp. -/
theorem clampCameraPitch_eq_self (p : ℝ)
    (hle : p ≤ maxPitch - radsFromCameraCenter)
    (hge : -(maxPitch - radsFromCameraCenter) ≤ p) :
    clampCameraPitch p = p := by
  unfold clampCameraPitch
  rw [if_neg (not_lt.mpr (by linarith)), if_neg (not_lt.mpr (by linarith))]

/-- A pitch above the bound is clamped to exactly the bound. -/
theorem clampCameraPitch_high (p : ℝ) (h : maxPitch - radsFromCameraCenter < p) :
    clampCameraPitch p = maxPitch - radsFromCameraCenter := by
  unfold clampCameraPitch
  rw [if_pos (by linarith)]

/-- A pitch below the negated bound is clamped to exactly the negated
bound. -/
theorem clampCameraPitch_low (p : ℝ) (h : p < -(maxPitch - radsFromCameraCenter)) :
    clampCameraPitch p = -(maxPitch - radsFromCameraCenter) := by
  have hr : radsFromCameraCenter = 5 * Real.pi / 24 := radsFromCameraCenter_eq
  have hm : maxPitch = Real.pi / 2 := rfl
  have hpi := Real.pi_pos
  unfold clampCameraPitch
  rw [if_neg (not_lt.mpr (by linarith)), if_pos (by linarith)]
  ring

/-! Claim theorems. -/

/-- C4: for a fixed friction and fixed session origin, a larger pixel
displacement produces a strictly larger-magnitude angular delta; for an
identical nonzero pixel displacement, the touch path (friction 0.75 times
the instance constant) produces a larger angular delta than the mouse
path; and the keyboard path uses friction 0.025 times the instance
constant. -/
theorem frictionMonotone (f x0 x1 x2 x3 : ℝ) (hf : 0 < f)
    (h12 : |x2 - x0| < |x1 - x0|) (h3 : x3 ≠ x0) :
    |frictionDelta x2 x0 f| < |frictionDelta x1 x0 f| ∧
    |frictionDelta x3 x0 (touchFriction f)| > |frictionDelta x3 x0 f| ∧
    keyFriction f = 0.025 * f := by
  have htf : 0 < touchFriction f := by
    unfold touchFriction
    nlinarith
  have habs : ∀ c g : ℝ, 0 < g → |frictionDelta c x0 g| = |c - x0| / g := by
    intro c g hg
    rw [frictionDelta, abs_div, abs_of_pos hg]
  refine ⟨?_, ?_, ?_⟩
  · rw [habs x2 f hf, habs x1 f hf]
    exact (div_lt_div_iff_of_pos_right hf).mpr h12
  · rw [habs x3 f hf, habs x3 (touchFriction f) htf]
    have hA : 0 < |x3 - x0| := abs_pos.mpr (sub_ne_zero.mpr h3)
    have hlt : touchFriction f < f := by
      unfold touchFriction
      nlinarith
    exact (div_lt_div_iff_of_pos_left hA hf htf).mpr hlt
  · unfold keyFriction
    ring

/-- C4 witness. -/
theorem frictionMonotoneInstance :
    |frictionDelta 1 0 2| < |frictionDelta 4 0 2| ∧
    |frictionDelta 3 0 (touchFriction 2)| > |frictionDelta 3 0 2| ∧
    keyFriction 2 = 0.025 * 2 :=
  frictionMonotone 2 0 4 1 3 (by norm_num)
    (by rw [abs_of_nonneg (by norm_num : (0:ℝ) ≤ 1 - 0), abs_of_nonneg (by norm_num : (0:ℝ) ≤ 4 - 0)]; norm_num)
    (by norm_num)

/-- C5: overlay placement computes position x = 800 sin yaw cos pitch,
y = 800 sin pitch, z = -(800 cos yaw cos pitch) for the placement radius
800 used by the code, with the rotation applied in Y-X-Z order facing the
camera; in particular placement at yaw 0, pitch 0 yields (0, 0, -800). -/
theorem overlayPlacementFormula (yaw pitch : ℝ) :
    ((setElementPosition yaw pitch).1.x = 800 * Real.sin yaw * Real.cos pitch ∧
     (setElementPosition yaw pitch).1.y = 800 * Real.sin pitch ∧
     (setElementPosition yaw pitch).1.z = -(800 * Real.cos yaw * Real.cos pitch)) ∧
    ((setElementPosition yaw pitch).2.order = EulerOrder.YXZ ∧
     (setElementPosition yaw pitch).2.y = -yaw ∧
     (setElementPosition yaw pitch).2.x = pitch) ∧
    ((setElementPosition 0 0).1.x = 0 ∧
     (setElementPosition 0 0).1.y = 0 ∧
     (setElementPosition 0 0).1.z = -800) := by
  refine ⟨⟨rfl, rfl, by unfold setElementPosition; ring⟩, ⟨rfl, rfl, rfl⟩, ?_, ?_, ?_⟩
  · show 800 * Real.sin 0 * Real.cos 0 = 0
    simp
  · show 800 * Real.sin 0 = 0
    simp
  · show -800 * Real.cos 0 * Real.cos 0 = -800
    simp

/-- C6: setCameraPosition is a no-op (camera unchanged, no notification)
while preventDeviceOrientation is set; when the flag is clear it stores
the orientation (yaw negated internally) and triggers movestop carrying
that yaw and pitch. -/
theorem setCameraPositionGated (s : Sys) (yaw pitch : ℝ) :
    (s.preventDeviceOrientation = true → setCameraPosition s yaw pitch = (s, [])) ∧
    (s.preventDeviceOrientation = false →
      (setCameraPosition s yaw pitch).1.camera.rotY = -yaw ∧
      (setCameraPosition s yaw pitch).1.camera.rotX = pitch ∧
      (setCameraPosition s yaw pitch).2 = [OutEvent.movestopSet yaw pitch]) := by
  constructor
  · intro h
    simp [setCameraPosition, h]
  · intro h
    simp [setCameraPosition, h]

/-- C6 witness. -/
theorem setCameraPositionGatedInstance :
    setCameraPosition sFlagSet 1 2 = (sFlagSet, []) ∧
    (setCameraPosition sInit 1 2).2 = [OutEvent.movestopSet 1 2] :=
  ⟨(setCameraPositionGated sFlagSet 1 2).1 rfl,
   ((setCameraPositionGated sInit 1 2).2 rfl).2.2⟩

/-- C10: with the arbiter flag clear, setCameraPosition then
getCurrentPosition returns exactly the yaw and pitch that were set; the
internal sign negation on the stored camera yaw is inverted on read. -/
theorem setGetRoundTrip (s : Sys) (yaw pitch : ℝ)
    (h : s.preventDeviceOrientation = false) :
    getCurrentPosition (setCameraPosition s yaw pitch).1 = (yaw, pitch) := by
  simp [setCameraPosition, getCurrentPosition, h]

/-- C10 witness. -/
theorem setGetRoundTripInstance :
    getCurrentPosition (setCameraPosition sInit 1 2).1 = (1, 2) :=
  setGetRoundTrip sInit 1 2 rfl

/-- C1 counterexample: with the camera drag session Active, a
primary-button start attempt on the overlay controls succeeds: the
overlay session becomes Active, its move/end listeners are attached, and
movestart is broadcast, contradicting the claim that it returns failure
with no listeners attached. -/
theorem crossInstanceStartSucceeds :
    camDragSys.camControls.controlActive = true ∧
    (sysElemMouseDown camDragSys 1 5 5).1.elemControls.controlActive = true ∧
    (sysElemMouseDown camDragSys 1 5 5).1.elemControls.mouseListeners = true ∧
    (sysElemMouseDown camDragSys 1 5 5).2 = [OutEvent.movestartElem] :=
  ⟨rfl, rfl, rfl, rfl⟩

/-- C1 (amended): mutual exclusion holds per PositionControls instance: a
start attempt on an instance whose session is Active returns with the
whole state unchanged (origin intact, no listeners attached, no events);
after the camera session ends, starting the overlay session succeeds.
Across distinct instances nothing blocks a start in this program. -/
theorem perInstanceMutualExclusion (s : Sys) (x y u v : ℝ) :
    (s.camControls.controlActive = true → sysCamMouseDown s 1 x y = (s, [])) ∧
    (s.elemControls.controlActive = true → sysElemMouseDown s 1 x y = (s, [])) ∧
    (s.elemControls.controlActive = false →
      (sysElemMouseDown (sysCamMouseUp s).1 1 u v).1.elemControls.controlActive = true ∧
      (sysElemMouseDown (sysCamMouseUp s).1 1 u v).2 = [OutEvent.movestartElem]) := by
  refine ⟨?_, ?_, ?_⟩
  · intro h
    simp [sysCamMouseDown, h]
  · intro h
    simp [sysElemMouseDown, h]
  · intro h
    simp [sysElemMouseDown, sysCamMouseUp, h]

/-- C1 witness. -/
theorem perInstanceMutualExclusionInstance :
    sysCamMouseDown camDragSys 1 3 3 = (camDragSys, []) ∧
    (sysElemMouseDown (sysCamMouseUp sInit).1 1 4 4).1.elemControls.controlActive = true :=
  ⟨(perInstanceMutualExclusion camDragSys 3 3 0 0).1 rfl,
   ((perInstanceMutualExclusion sInit 0 0 4 4).2.2 rfl).1⟩

/-- C8 counterexample: ending the Active camera drag session relays the
bare movestop event, which carries no yaw/pitch payload, contradicting
the claim that every move-stop notification carries the final yaw and
pitch. -/
theorem cameraMovestopNoPayload :
    camDragSys.camControls.controlActive = true ∧
    (sysCamMouseUp camDragSys).2 = [OutEvent.movestopCam] ∧
    carriesPosition OutEvent.movestopCam = false :=
  ⟨rfl, rfl, rfl⟩

/-- C8 (amended): every end transition (mouse-up, touch-end, key-up for
the camera; mouse-up for the overlay) clears the arbiter flag, detaches
the listeners attached at session start and deactivates the session; the
overlay movestop carries the element index and the final yaw and pitch,
while the camera movestop carries no position payload. -/
theorem sessionEndBehaviour (s : Sys) :
    ((sysCamMouseUp s).1.preventDeviceOrientation = false ∧
     (sysCamMouseUp s).1.camControls.mouseListeners = false ∧
     (sysCamMouseUp s).1.camControls.controlActive = false ∧
     (sysCamMouseUp s).2 = [OutEvent.movestopCam]) ∧
    ((sysCamTouchEnd s).1.preventDeviceOrientation = false ∧
     (sysCamTouchEnd s).1.camControls.touchListeners = false ∧
     (sysCamTouchEnd s).1.camControls.controlActive = false ∧
     (sysCamTouchEnd s).2 = [OutEvent.movestopCam]) ∧
    ((sysCamKeyUp s).1.preventDeviceOrientation = false ∧
     (sysCamKeyUp s).1.camControls.keyupListener = false ∧
     (sysCamKeyUp s).1.camControls.controlActive = false ∧
     (sysCamKeyUp s).2 = [OutEvent.movestopCam]) ∧
    ((sysElemMouseUp s).1.preventDeviceOrientation = false ∧
     (sysElemMouseUp s).1.elemControls.mouseListeners = false ∧
     (sysElemMouseUp s).1.elemControls.controlActive = false ∧
     (sysElemMouseUp s).2 = [OutEvent.movestopElem s.elemIndex (-s.elemRotY) s.elemRotX]) :=
  ⟨⟨rfl, rfl, rfl, rfl⟩, ⟨rfl, rfl, rfl, rfl⟩, ⟨rfl, rfl, rfl, rfl⟩, ⟨rfl, rfl, rfl, rfl⟩⟩

/-- C9: a key-down whose code is not one of the four arrow-key variants
(including numpad) leaves the state unchanged and triggers nothing;
during a keyboard session only the key that started the session is
honoured (any other key-down changes nothing); a pointer-down with a
non-primary button is ignored entirely. -/
theorem inputFiltering (s : PC) (which k : ℕ) (invert f x y : ℝ) (prevented : Bool) :
    (¬ which ∈ arrowKeys → keyDownFn s which invert f prevented = (s, [])) ∧
    (s.keyStillDown = some k → which ≠ k → keyDownFn s which invert f prevented = (s, [])) ∧
    (which ≠ 1 → mouseDownFn s which x y prevented = (s, [])) := by
  refine ⟨?_, ?_, ?_⟩
  · intro h
    simp [keyDownFn, h]
  · intro hk hne
    by_cases hmem : which ∈ arrowKeys
    · simp [keyDownFn, hmem, hk, Ne.symm hne]
    · simp [keyDownFn, hmem]
  · intro h
    simp [mouseDownFn, h]

/-- C9 witness. -/
theorem inputFilteringInstance :
    keyDownFn pcInit 50 1 800 false = (pcInit, []) ∧
    keyDownFn pcLeftKeySession 39 1 800 false = (pcLeftKeySession, []) ∧
    mouseDownFn pcInit 3 0 0 false = (pcInit, []) :=
  ⟨(inputFiltering pcInit 50 37 1 800 0 0 false).1 (by decide),
   (inputFiltering pcLeftKeySession 39 37 1 800 0 0 false).2.1 rfl (by decide),
   (inputFiltering pcInit 3 37 1 800 0 0 false).2.2 (by decide)⟩

/-- C2 counterexample: setCameraPosition performs no yaw normalization:
setting yaw 7 with the flag clear stores camera rotation y = -7 (negative,
hence outside [0, 2 pi)), and the externally visible yaw reads back as 7,
which is not below 2 pi either. -/
theorem setCameraPositionYawUnnormalized :
    (setCameraPosition sInit 7 0).1.camera.rotY = -7 ∧
    ¬ (0 ≤ (setCameraPosition sInit 7 0).1.camera.rotY) ∧
    getCurrentPosition (setCameraPosition sInit 7 0).1 = (7, 0) ∧
    ¬ ((getCurrentPosition (setCameraPosition sInit 7 0).1).1 < pi2) := by
  have h1 : (setCameraPosition sInit 7 0).1.camera.rotY = -7 := rfl
  have h2 : (getCurrentPosition (setCameraPosition sInit 7 0).1).1 = 7 := by
    show -(-(7 : ℝ)) = 7
    norm_num
  refine ⟨h1, ?_, ?_, ?_⟩
  · rw [h1]
    norm_num
  · show (-(-(7 : ℝ)), (0 : ℝ)) = (7, 0)
    norm_num
  · rw [h2]
    unfold pi2
    intro hcon
    linarith [Real.pi_lt_d2]

/-- C2 (amended): the yaw stored by the camera move handler always lies in
[0, 2 pi), and wrap-around is continuous: a move from stored yaw
2 pi - 0.01 with delta +0.02 stores yaw exactly 0.01; setCameraPosition,
by contrast, stores the yaw without normalization. -/
theorem cameraMoveYawNormalized (startY startX aD bD : ℝ) :
    (0 ≤ (cameraMoveCompute startY startX aD bD).1 ∧
     (cameraMoveCompute startY startX aD bD).1 < pi2) ∧
    (cameraMoveCompute (pi2 - 1 / 100) 0 (2 / 100) 0).1 = 1 / 100 := by
  have hpi2 : 0 < pi2 := by
    unfold pi2
    linarith [Real.pi_pos]
  constructor
  · have hb := jsMod_bounds (startY + aD) pi2 hpi2
    unfold cameraMoveCompute
    dsimp only
    split_ifs with h
    · exact ⟨by linarith [hb.1], by linarith⟩
    · exact ⟨le_of_not_lt h, hb.2⟩
  · unfold cameraMoveCompute
    dsimp only
    rw [show pi2 - 1 / 100 + 2 / 100 = pi2 + 1 / 100 from by ring]
    have hmod : jsMod (pi2 + 1 / 100) pi2 = 1 / 100 := by
      unfold jsMod jsTrunc
      have hq : 0 ≤ (pi2 + 1 / 100) / pi2 := div_nonneg (by linarith) hpi2.le
      rw [if_pos hq]
      have hfloor : ⌊(pi2 + 1 / 100) / pi2⌋ = 1 := by
        rw [Int.floor_eq_iff]
        have hgt : (1 : ℝ) / 100 < pi2 := by
          unfold pi2
          linarith [Real.pi_gt_three]
        constructor
        · push_cast
          rw [le_div_iff₀ hpi2]
          linarith
        · push_cast
          rw [div_lt_iff₀ hpi2]
          linarith
      rw [hfloor]
      push_cast
      ring
    rw [hmod, if_neg (by norm_num)]

/-- C3 counterexample: setCameraPosition performs no pitch clamping:
setting pitch 2 with the flag clear stores camera rotation x = 2, even
though 2 exceeds the bound pi over 2 minus half the field of view. -/
theorem setCameraPositionPitchUnclamped :
    (setCameraPosition sInit 0 2).1.camera.rotX = 2 ∧
    maxPitch - radsFromCameraCenter < 2 := by
  refine ⟨rfl, ?_⟩
  rw [radsFromCameraCenter_eq]
  show Real.pi / 2 - 5 * Real.pi / 24 < 2
  linarith [Real.pi_lt_d2]

/-- C3 (amended): the pitch stored by the camera move handler lies in
[-bound, bound] with bound = pi over 2 minus half the field of view in
radians; an input exactly at the bound is stored unchanged, and an input
beyond either bound is stored as exactly that bound; setCameraPosition,
by contrast, stores the pitch without clamping. -/
theorem cameraMovePitchClamped (startY startX aD bD : ℝ) :
    (-(maxPitch - radsFromCameraCenter) ≤ (cameraMoveCompute startY startX aD bD).2 ∧
     (cameraMoveCompute startY startX aD bD).2 ≤ maxPitch - radsFromCameraCenter) ∧
    (startX + bD = maxPitch - radsFromCameraCenter →
      (cameraMoveCompute startY startX aD bD).2 = startX + bD) ∧
    (maxPitch - radsFromCameraCenter < startX + bD →
      (cameraMoveCompute startY startX aD bD).2 = maxPitch - radsFromCameraCenter) ∧
    (startX + bD < -(maxPitch - radsFromCameraCenter) →
      (cameraMoveCompute startY startX aD bD).2 = -(maxPitch - radsFromCameraCenter)) := by
  have hsnd : (cameraMoveCompute startY startX aD bD).2 = clampCameraPitch (startX + bD) := rfl
  have hb0 : 0 ≤ maxPitch - radsFromCameraCenter := by
    rw [radsFromCameraCenter_eq]
    show (0 : ℝ) ≤ Real.pi / 2 - 5 * Real.pi / 24
    linarith [Real.pi_pos]
  refine ⟨?_, ?_, ?_, ?_⟩
  · rw [hsnd]
    exact clampCameraPitch_mem (startX + bD)
  · intro h
    rw [hsnd]
    exact clampCameraPitch_eq_self (startX + bD) (le_of_eq h) (by linarith)
  · intro h
    rw [hsnd]
    exact clampCameraPitch_high (startX + bD) h
  · intro h
    rw [hsnd]
    exact clampCameraPitch_low (startX + bD) h

/-- C3 witness. -/
theorem cameraMovePitchClampedInstance :
    (cameraMoveCompute 0 0 0 2).2 = maxPitch - radsFromCameraCenter := by
  have hb : maxPitch - radsFromCameraCenter < 0 + 2 := by
    rw [radsFromCameraCenter_eq]
    show Real.pi / 2 - 5 * Real.pi / 24 < 0 + 2
    linarith [Real.pi_lt_d2]
  exact (cameraMovePitchClamped 0 0 0 2).2.2.1 hb

/-- C7 counterexample: with an overlay drag started from the element at
yaw 0, pitch 0, a move sample 1600 pixels up gives betaDelta = -2 and the
handler applies pitch 2 to the placement unchanged, although the camera
clamp rule maps 2 to the strictly smaller bound, contradicting the claim
that the overlay path clamps the pitch by the camera rule. -/
theorem overlayMoveNoClampCex :
    (sysElemMove elemDragSys 0 (-1600)).elemRotX = 2 ∧
    maxPitch - radsFromCameraCenter < 2 ∧
    clampCameraPitch 2 = maxPitch - radsFromCameraCenter ∧
    clampCameraPitch 2 ≠ 2 := by
  have hb : maxPitch - radsFromCameraCenter < 2 := by
    rw [radsFromCameraCenter_eq]
    show Real.pi / 2 - 5 * Real.pi / 24 < 2
    linarith [Real.pi_lt_d2]
  have hc : clampCameraPitch 2 = maxPitch - radsFromCameraCenter :=
    clampCameraPitch_high 2 hb
  refine ⟨?_, hb, hc, ?_⟩
  · show (setElementPosition 0 0).2.x - ((-1600 : ℝ) - 0) / defaultFriction = 2
    unfold setElementPosition defaultFriction
    norm_num
  · rw [hc]
    exact ne_of_lt hb

/-- C7 (amended): each move sample of an overlay drag recomputes the
placement from the session origin orientation plus the friction-scaled
deltas, yaw = startY + alphaDelta and pitch = startX - betaDelta, and the
pitch is applied to the placement directly, with no clamping. -/
theorem overlayMoveFromOrigin (s : Sys) (x y : ℝ) :
    (sysElemMove s x y).elemRotY =
      -(s.elemStartY + frictionDelta x s.elemControls.startPosition.1 defaultFriction) ∧
    (sysElemMove s x y).elemRotX =
      s.elemStartX - frictionDelta y s.elemControls.startPosition.2 defaultFriction ∧
    (sysElemMove s x y).elemPos =
      (setElementPosition
        (s.elemStartY + frictionDelta x s.elemControls.startPosition.1 defaultFriction)
        (s.elemStartX - frictionDelta y s.elemControls.startPosition.2 defaultFriction)).1 :=
  ⟨rfl, rfl, rfl⟩

end ThreeSixty
